import Mathlib

/-
Verification of the toolchain-abstraction layer in LUFA/Common/CompilerSpecific.h.

The header is a pure build-time artifact: it inspects preprocessor symbols
describing the build environment (compiler identity, documentation mode, the
umbrella-inclusion marker, the target architecture) and, for each primitive of
the abstraction layer, either defines a macro (with a fixed parameter arity and
an expansion body) or leaves it undefined.  The embedding below models the
build environment as a record of those compile-time facts and transcribes each
conditional block of the header into a total Lean function from environment to
macro tables.  Compiler intrinsics referenced by the expansions (constant
detection, status-flag instructions, the reordering barrier) are not part of
the repository; they are modelled from the specification, each marked as such
in its doc comment.
-/

set_option maxRecDepth 100000

namespace CompilerSpecific

/-- The target-architecture identifier (the ARCH symbol), compared against the
recognized values ARCH_AVR, ARCH_XMEGA and ARCH_UC3 in the header; `other`
stands for any unrecognized value. -/
inductive Arch
  | avr
  | xmega
  | uc3
  | other
deriving DecidableEq, Fintype, Repr

/-- A build environment: which compile-time identity symbols are defined when
the header is processed, plus the target-architecture value. -/
structure Env where
  gnuc : Bool
  iccavr32 : Bool
  doxygen : Bool
  includeFromCommonH : Bool
  guardDefined : Bool
  arch : Arch
deriving DecidableEq, Fintype, Repr

/-- The nine primitives of the abstraction layer's catalog. -/
inductive Prim
  | forcePointerAccess
  | memoryBarrier
  | isCompileConst
  | isPartDefined
  | isr
  | readSysRegister
  | writeSysRegister
  | clearStatusFlag
  | setStatusFlag
deriving DecidableEq, Fintype, Repr

/-- Parameter arity of a function-like macro: a fixed count, or a variadic
parameter list requiring at least `minArgs` arguments. -/
inductive Arity
  | fixed (n : Nat)
  | variadic (minArgs : Nat)
deriving DecidableEq, Repr

/-- A macro definition: its parameter arity and its expansion body as a list
of tokens (the empty list is an empty expansion). -/
structure MacroDef where
  arity : Arity
  body : List String
deriving DecidableEq, Repr

/-- Header line 64: the GCC block is taken when __GNUC__ or __DOXYGEN__ is
defined. -/
def gccBranchActive (e : Env) : Bool :=
  e.gnuc || e.doxygen

/-- Header line 117: the IAR block is taken when __ICCAVR32__ or __DOXYGEN__
is defined. -/
def iarBranchActive (e : Env) : Bool :=
  e.iccavr32 || e.doxygen

/-- Outcome of processing an inclusion of the header. -/
inductive IncludeResult
  | skipped
  | buildError (msg : String)
  | included
deriving DecidableEq, Repr

/-- The diagnostic text of the header's direct-inclusion check (line 59). -/
def directInclusionError : String :=
  "Do not include this file directly. Include LUFA/Common/Common.h instead to gain this functionality."

/-- Header lines 54-60: the include guard __LUFA_COMPILERSPEC_H__ makes a
repeated inclusion a no-op; otherwise, if __INCLUDE_FROM_COMMON_H is not
defined the build fails with the diagnostic of line 59. -/
def processInclude (e : Env) : IncludeResult :=
  if e.guardDefined then IncludeResult.skipped
  else if !e.includeFromCommonH then IncludeResult.buildError directInclusionError
  else IncludeResult.included

/-- Header lines 64-104: the GCC_* macro definitions made when the GCC block
is taken, as a function of the ARCH value.  The part-query macro (lines 89-93)
is only defined for the recognized architecture values; there is no #else
branch, so an unrecognized ARCH leaves it undefined. -/
def gccRealDef (a : Arch) : Prim → Option MacroDef
  | Prim.forcePointerAccess =>
      some ⟨Arity.fixed 1,
        ["__asm__", "__volatile__", "(", ":", "=b", "(", "StructPtr", ")",
         ":", "0", "(", "StructPtr", ")", ")"]⟩
  | Prim.memoryBarrier =>
      some ⟨Arity.fixed 0,
        ["__asm__", "__volatile__", "(", ":", ":", ":", "memory", ")", ";"]⟩
  | Prim.isCompileConst =>
      some ⟨Arity.fixed 1, ["__builtin_constant_p", "(", "x", ")"]⟩
  | Prim.isPartDefined =>
      match a with
      | Arch.avr => some ⟨Arity.fixed 1, ["defined", "(", "__AVR_", "##", "x", "##", "__", ")"]⟩
      | Arch.xmega => some ⟨Arity.fixed 1, ["defined", "(", "__AVR_", "##", "x", "##", "__", ")"]⟩
      | Arch.uc3 => some ⟨Arity.fixed 1, ["defined", "(", "__AVR32_", "##", "x", "##", "__", ")"]⟩
      | Arch.other => none
  | Prim.isr =>
      some ⟨Arity.variadic 1,
        ["void", "Name", "(", "void", ")", "__attribute__", "(", "(", "__interrupt__", ")", ")",
         "__VA_ARGS__", ";", "void", "Name", "(", "void", ")"]⟩
  | Prim.readSysRegister =>
      some ⟨Arity.fixed 1, ["__builtin_mfsr", "(", "Reg", ")"]⟩
  | Prim.writeSysRegister =>
      some ⟨Arity.fixed 2, ["__builtin_mtsr", "(", "Reg", ",", "Val", ")"]⟩
  | Prim.clearStatusFlag =>
      some ⟨Arity.fixed 1, ["__builtin_csrf", "(", "Bitmask", ")"]⟩
  | Prim.setStatusFlag =>
      some ⟨Arity.fixed 1, ["__builtin_ssrf", "(", "Bitmask", ")"]⟩

/-- Header lines 105-115: the GCC_* fallback block, taken when the GCC block
is not; every one of the nine macros is defined, with an empty expansion or
the conservative constant 0. -/
def gccFallbackDef : Prim → Option MacroDef
  | Prim.forcePointerAccess => some ⟨Arity.fixed 1, []⟩
  | Prim.memoryBarrier => some ⟨Arity.fixed 0, []⟩
  | Prim.isCompileConst => some ⟨Arity.fixed 1, ["0"]⟩
  | Prim.isPartDefined => some ⟨Arity.fixed 1, ["0"]⟩
  | Prim.isr => some ⟨Arity.variadic 1, []⟩
  | Prim.readSysRegister => some ⟨Arity.fixed 1, []⟩
  | Prim.writeSysRegister => some ⟨Arity.fixed 2, []⟩
  | Prim.clearStatusFlag => some ⟨Arity.fixed 1, []⟩
  | Prim.setStatusFlag => some ⟨Arity.fixed 1, []⟩

/-- The GCC_* macro table produced for a build environment (lines 64-115). -/
def gccDef (e : Env) : Prim → Option MacroDef :=
  if gccBranchActive e then gccRealDef e.arch else gccFallbackDef

/-- Header lines 117-141: the IAR_* macro definitions made when the IAR block
is taken.  The block defines no pointer-indirection hint and no constant-fold
query at all; the part-query macro (lines 122-126) again has no #else branch
for an unrecognized ARCH. -/
def iarRealDef (a : Arch) : Prim → Option MacroDef
  | Prim.forcePointerAccess => none
  | Prim.memoryBarrier =>
      some ⟨Arity.fixed 0, ["__asm", "(", ")"]⟩
  | Prim.isCompileConst => none
  | Prim.isPartDefined =>
      match a with
      | Arch.avr => some ⟨Arity.fixed 1, ["defined", "(", "__AT", "##", "x", "##", "__", ")"]⟩
      | Arch.xmega => some ⟨Arity.fixed 1, ["defined", "(", "__AT", "##", "x", "##", "__", ")"]⟩
      | Arch.uc3 => some ⟨Arity.fixed 1, ["defined", "(", "__AT32", "##", "x", "##", "__", ")"]⟩
      | Arch.other => none
  | Prim.isr =>
      some ⟨Arity.fixed 3,
        ["__IAR_ISR_PRAGMA", "(", "handler", "=", "Group", ",", "Level", ")",
         "__interrupt", "void", "Name", "(", "void", ")"]⟩
  | Prim.readSysRegister =>
      some ⟨Arity.fixed 1, ["__get_system_register", "(", "Reg", ")"]⟩
  | Prim.writeSysRegister =>
      some ⟨Arity.fixed 2, ["__set_system_register", "(", "Reg", ",", "Val", ")"]⟩
  | Prim.clearStatusFlag =>
      some ⟨Arity.fixed 1, ["__clear_status_flag", "(", "Bitmask", ")"]⟩
  | Prim.setStatusFlag =>
      some ⟨Arity.fixed 1, ["__set_status_flag", "(", "Bitmask", ")"]⟩

/-- Header lines 142-149: the IAR_* fallback block.  Unlike the GCC fallback
it omits the memory barrier (and, as in the real block, the pointer hint and
the constant-fold query); the remaining six macros are defined, empty or 0. -/
def iarFallbackDef : Prim → Option MacroDef
  | Prim.forcePointerAccess => none
  | Prim.memoryBarrier => none
  | Prim.isCompileConst => none
  | Prim.isPartDefined => some ⟨Arity.fixed 1, ["0"]⟩
  | Prim.isr => some ⟨Arity.variadic 1, []⟩
  | Prim.readSysRegister => some ⟨Arity.fixed 1, []⟩
  | Prim.writeSysRegister => some ⟨Arity.fixed 2, []⟩
  | Prim.clearStatusFlag => some ⟨Arity.fixed 1, []⟩
  | Prim.setStatusFlag => some ⟨Arity.fixed 1, []⟩

/-- The IAR_* macro table produced for a build environment (lines 117-149). -/
def iarDef (e : Env) : Prim → Option MacroDef :=
  if iarBranchActive e then iarRealDef e.arch else iarFallbackDef

/-- The toolchain families of the design: the two real families and the
no-op/conservative fallback. -/
inductive Family
  | gccFam
  | iarFam
  | fallbackFam
deriving DecidableEq, Repr

/-- The families whose real implementation blocks are taken in a build
environment; when neither real block is taken, the fallback family is the one
providing every definition. -/
def activeFamilies (e : Env) : List Family :=
  (if gccBranchActive e then [Family.gccFam] else []) ++
  (if iarBranchActive e then [Family.iarFam] else []) ++
  (if !gccBranchActive e && !iarBranchActive e then [Family.fallbackFam] else [])

/-- Which family prefix a __COMPILER_SPECIFIC definition pastes. -/
inductive FamilyTag
  | gccTag
  | iarTag
deriving DecidableEq, Repr

/-- Header lines 102-104 and 139-141: the definitions of __COMPILER_SPECIFIC
made by the two blocks, in textual order.  Each is guarded by the enclosing
block's condition and by !defined(__DOXYGEN__); neither fallback block defines
it, so the list is empty when no real block defines it. -/
def compilerSpecificDefs (e : Env) : List FamilyTag :=
  (if gccBranchActive e && !e.doxygen then [FamilyTag.gccTag] else []) ++
  (if iarBranchActive e && !e.doxygen then [FamilyTag.iarTag] else [])

/-- The symbol name produced by pasting a part name into the GCC part-query
convention for an architecture (lines 89-93). -/
def gccPartSymbol : Arch → String → Option String
  | Arch.avr, x => some ("__AVR_" ++ x ++ "__")
  | Arch.xmega, x => some ("__AVR_" ++ x ++ "__")
  | Arch.uc3, x => some ("__AVR32_" ++ x ++ "__")
  | Arch.other, _ => none

/-- The symbol name produced by pasting a part name into the IAR part-query
convention for an architecture (lines 122-126). -/
def iarPartSymbol : Arch → String → Option String
  | Arch.avr, x => some ("__AT" ++ x ++ "__")
  | Arch.xmega, x => some ("__AT" ++ x ++ "__")
  | Arch.uc3, x => some ("__AT32" ++ x ++ "__")
  | Arch.other, _ => none

/-- A C expression as seen by the constant-detection builtin: an integer
literal, a variable reference, or a compound of two subexpressions. -/
inductive CExpr
  | lit (n : Int)
  | var (s : String)
  | binop (op : String) (a b : CExpr)
deriving DecidableEq, Repr

/-- Modelled from the spec: GCC's __builtin_constant_p intrinsic (not part of
the repository) returns true iff the compiler can prove the expression
constant at compile time; a literal is constant, a variable is not, and a
compound is constant when both operands are. -/
def __builtin_constant_p : CExpr → Bool
  | CExpr.lit _ => true
  | CExpr.var _ => false
  | CExpr.binop _ a b => __builtin_constant_p a && __builtin_constant_p b

/-- The value of GCC_IS_COMPILE_CONST in a build environment: the real
definition (line 87) applies the builtin, the fallback (line 108) is the
constant 0, i.e. false. -/
def gccIsCompileConstSem (e : Env) (x : CExpr) : Bool :=
  if gccBranchActive e then __builtin_constant_p x else false

/-- Whether a macro of the given arity accepts a call with `k` arguments;
calls with the wrong count are preprocessing errors. -/
def acceptsArgCount : Arity → Nat → Bool
  | Arity.fixed n, k => k == n
  | Arity.variadic m, k => decide (m ≤ k)

/-- Modelled from the spec: the status-register clear intrinsic
(__builtin_csrf) clears exactly the bitmask bits, as one atomic instruction,
here one function application on the register value. -/
def __builtin_csrf (sr mask : Nat) : Nat :=
  Nat.ldiff sr mask

/-- Modelled from the spec: the status-register set intrinsic
(__builtin_ssrf) sets exactly the bitmask bits, as one atomic instruction. -/
def __builtin_ssrf (sr mask : Nat) : Nat :=
  sr ||| mask

/-- Modelled from the spec: IAR's __clear_status_flag intrinsic, same
contract as the GCC clear intrinsic. -/
def __clear_status_flag (sr mask : Nat) : Nat :=
  Nat.ldiff sr mask

/-- Modelled from the spec: IAR's __set_status_flag intrinsic, same contract
as the GCC set intrinsic. -/
def __set_status_flag (sr mask : Nat) : Nat :=
  sr ||| mask

/-- An instruction as the compiler's reordering pass sees it: a memory access
(identified by an index) or a barrier. -/
inductive Instr
  | access (id : Nat)
  | barrier
deriving DecidableEq, Repr

/-- Prepend an instruction to the first segment of a segment list. -/
def consHead (i : Instr) : List (List Instr) → List (List Instr)
  | [] => [[i]]
  | s :: ss => (i :: s) :: ss

/-- Split an instruction list into its maximal barrier-free segments. -/
def splitOnBarrier : List Instr → List (List Instr)
  | [] => [[]]
  | Instr.barrier :: rest => [] :: splitOnBarrier rest
  | Instr.access n :: rest => consHead (Instr.access n) (splitOnBarrier rest)

/-- Modelled from the spec: the compiler may reorder memory accesses freely
within barrier-delimited segments, but never across a barrier; a reordering
is valid iff it permutes each barrier-free segment in place. -/
def validReorder (p q : List Instr) : Prop :=
  List.Forall₂ (fun a b => List.Perm a b) (splitOnBarrier p) (splitOnBarrier q)

/-- Modelled from the spec: an expansion containing an inline-assembly
statement (the __asm__/__asm token) acts as a compiler reordering barrier and
contributes one barrier to the instruction stream; an empty or absent
expansion contributes nothing. -/
def memoryBarrierInstrs (d : Option MacroDef) : List Instr :=
  match d with
  | none => []
  | some m =>
      if m.body.contains "__asm__" || m.body.contains "__asm" then [Instr.barrier] else []

theorem splitOnBarrier_ne_nil (l : List Instr) : splitOnBarrier l ≠ [] := by
  induction l with
  | nil => simp [splitOnBarrier]
  | cons i t ih =>
      cases i with
      | barrier => simp [splitOnBarrier]
      | access n =>
          simp only [splitOnBarrier]
          cases h : splitOnBarrier t with
          | nil => simp [consHead]
          | cons s ss => simp [consHead]

theorem split_barrierFree (l : List Instr) (h : Instr.barrier ∉ l) :
    splitOnBarrier l = [l] := by
  induction l with
  | nil => rfl
  | cons i t ih =>
      cases i with
      | barrier => exact absurd (List.mem_cons_self _ _) h
      | access n =>
          have ht : Instr.barrier ∉ t := fun hm => h (List.mem_cons_of_mem _ hm)
          simp [splitOnBarrier, ih ht, consHead]

theorem split_append (p1 p2 : List Instr) (h : Instr.barrier ∉ p1) :
    splitOnBarrier (p1 ++ Instr.barrier :: p2) = p1 :: splitOnBarrier p2 := by
  induction p1 with
  | nil => rfl
  | cons i t ih =>
      cases i with
      | barrier => exact absurd (List.mem_cons_self _ _) h
      | access n =>
          have ht : Instr.barrier ∉ t := fun hm => h (List.mem_cons_of_mem _ hm)
          simp [splitOnBarrier, ih ht, consHead]

theorem split_singleton (l : List Instr) : ∀ s, splitOnBarrier l = [s] → l = s := by
  induction l with
  | nil =>
      intro s h
      simp [splitOnBarrier] at h
      exact h.symm
  | cons i t ih =>
      intro s h
      cases i with
      | barrier =>
          simp only [splitOnBarrier] at h
          injection h with h1 h2
          exact absurd h2 (splitOnBarrier_ne_nil t)
      | access n =>
          simp only [splitOnBarrier] at h
          cases hsp : splitOnBarrier t with
          | nil => exact absurd hsp (splitOnBarrier_ne_nil t)
          | cons u us =>
              rw [hsp] at h
              simp only [consHead] at h
              injection h with h1 h2
              subst h2
              subst h1
              rw [ih u hsp]

theorem split_pair (q : List Instr) : ∀ q1 q2, splitOnBarrier q = [q1, q2] →
    q = q1 ++ Instr.barrier :: q2 := by
  induction q with
  | nil =>
      intro q1 q2 h
      simp [splitOnBarrier] at h
  | cons i t ih =>
      intro q1 q2 h
      cases i with
      | barrier =>
          simp only [splitOnBarrier] at h
          injection h with h1 h2
          subst h1
          rw [split_singleton t q2 h2]
          rfl
      | access n =>
          simp only [splitOnBarrier] at h
          cases hsp : splitOnBarrier t with
          | nil => exact absurd hsp (splitOnBarrier_ne_nil t)
          | cons u us =>
              rw [hsp] at h
              simp only [consHead] at h
              injection h with h1 h2
              subst h1
              rw [h2] at hsp
              rw [ih u q2 hsp]
              rfl

theorem barrier_separates {p1 p2 q : List Instr} (h1 : Instr.barrier ∉ p1)
    (h2 : Instr.barrier ∉ p2) (hr : validReorder (p1 ++ [Instr.barrier] ++ p2) q) :
    ∃ q1 q2, q = q1 ++ Instr.barrier :: q2 ∧ List.Perm p1 q1 ∧ List.Perm p2 q2 := by
  unfold validReorder at hr
  rw [List.append_assoc] at hr
  simp only [List.singleton_append] at hr
  rw [split_append p1 p2 h1, split_barrierFree p2 h2] at hr
  rw [List.forall₂_cons_left_iff] at hr
  obtain ⟨b, u, hp1, hr2, hq⟩ := hr
  rw [List.forall₂_cons_left_iff] at hr2
  obtain ⟨b2, u2, hp2, hr3, hu⟩ := hr2
  rw [List.forall₂_nil_left_iff] at hr3
  subst hr3
  subst hu
  exact ⟨b, b2, split_pair q b b2 hq, hp1, hp2⟩

theorem paste_ne_of_length_ne (a b x s : String) (h : a.length ≠ b.length) :
    a ++ x ++ s ≠ b ++ x ++ s := by
  intro heq
  have hl := congrArg String.length heq
  simp only [String.length_append] at hl
  omega

/-- C1 (counterexample): in a build environment asserting no recognized
compiler identity, the dispatch-facade name __COMPILER_SPECIFIC receives no
definition at all, and the IAR-family memory-barrier primitive has no
fallback definition either, so the claim that every primitive and the facade
are defined in every build is false. -/
theorem c1_primitive_coverage_cex :
    compilerSpecificDefs ⟨false, false, false, true, false, Arch.avr⟩ = [] ∧
    iarDef ⟨false, false, false, true, false, Arch.avr⟩ Prim.memoryBarrier = none := by
  decide

/-- C1 (amended): every GCC-prefixed primitive except the part query has a
defined expansion in every build, and the part query is defined unless the
GCC block is taken with an unrecognized architecture; among IAR-prefixed
primitives the ISR, part query (same architecture proviso), register and flag
macros are always defined, the memory barrier is defined only when the IAR
block is taken, and the pointer-indirection hint and constant-fold query are
never defined; __COMPILER_SPECIFIC is defined exactly when a compiler
identity is asserted and the documentation symbol is not. -/
theorem c1_primitive_coverage : ∀ e : Env,
    (∀ p : Prim, p ≠ Prim.isPartDefined → (gccDef e p).isSome = true) ∧
    ((gccDef e Prim.isPartDefined).isSome = true ↔
      ¬(gccBranchActive e = true ∧ e.arch = Arch.other)) ∧
    ((iarDef e Prim.isr).isSome = true ∧ (iarDef e Prim.readSysRegister).isSome = true ∧
      (iarDef e Prim.writeSysRegister).isSome = true ∧
      (iarDef e Prim.clearStatusFlag).isSome = true ∧
      (iarDef e Prim.setStatusFlag).isSome = true) ∧
    ((iarDef e Prim.isPartDefined).isSome = true ↔
      ¬(iarBranchActive e = true ∧ e.arch = Arch.other)) ∧
    ((iarDef e Prim.memoryBarrier).isSome = true ↔ iarBranchActive e = true) ∧
    (iarDef e Prim.forcePointerAccess = none ∧ iarDef e Prim.isCompileConst = none) ∧
    (compilerSpecificDefs e ≠ [] ↔
      (e.gnuc = true ∨ e.iccavr32 = true) ∧ e.doxygen = false) := by
  decide

/-- C1 (witness): the amended theorem applied to a concrete GCC build, with
the primitive-inequality hypothesis discharged for the memory barrier. -/
theorem c1_primitive_coverage_witness :
    (gccDef ⟨true, false, false, true, false, Arch.uc3⟩ Prim.memoryBarrier).isSome = true :=
  (c1_primitive_coverage ⟨true, false, false, true, false, Arch.uc3⟩).1
    Prim.memoryBarrier (by decide)

/-- C2 (counterexample): a build environment asserting both __GNUC__ and
__ICCAVR32__ takes both real implementation blocks, so two families are
active simultaneously and the claim that exactly one family is always active
is false. -/
theorem c2_family_selection_cex :
    activeFamilies ⟨true, true, false, true, false, Arch.avr⟩ =
      [Family.gccFam, Family.iarFam] ∧
    (activeFamilies ⟨true, true, false, true, false, Arch.avr⟩).length ≠ 1 := by
  decide

/-- C2 (amended): at least one family is always active; when no recognized
compiler identity is present only the fallback family is active; exactly one
family is active whenever the two real blocks are not both taken; but an
environment taking both blocks (both identities, or the documentation symbol)
activates the GCC and IAR families simultaneously. -/
theorem c2_family_selection : ∀ e : Env,
    activeFamilies e ≠ [] ∧
    ((gccBranchActive e = false ∧ iarBranchActive e = false) →
      activeFamilies e = [Family.fallbackFam]) ∧
    (¬(gccBranchActive e = true ∧ iarBranchActive e = true) →
      (activeFamilies e).length = 1) ∧
    ((gccBranchActive e = true ∧ iarBranchActive e = true) →
      activeFamilies e = [Family.gccFam, Family.iarFam]) := by
  decide

/-- C2 (witness): the amended theorem applied to a GCC-only build, with the
not-both-blocks hypothesis discharged. -/
theorem c2_family_selection_witness :
    (activeFamilies ⟨true, false, false, true, false, Arch.avr⟩).length = 1 :=
  (c2_family_selection ⟨true, false, false, true, false, Arch.avr⟩).2.2.1 (by decide)

/-- C3: on a first inclusion (guard not yet defined), processing the header
without the umbrella marker __INCLUDE_FROM_COMMON_H fails with the nonempty
diagnostic of line 59, and processing it with the marker succeeds with no
error. -/
theorem c3_umbrella_guard : ∀ e : Env, e.guardDefined = false →
    (e.includeFromCommonH = false →
      processInclude e = IncludeResult.buildError directInclusionError ∧
      directInclusionError ≠ "") ∧
    (e.includeFromCommonH = true → processInclude e = IncludeResult.included) := by
  decide

/-- C3 (witness): the theorem applied to concrete environments with and
without the umbrella marker. -/
theorem c3_umbrella_guard_witness :
    processInclude ⟨false, false, false, false, false, Arch.avr⟩ =
      IncludeResult.buildError directInclusionError ∧
    processInclude ⟨false, false, false, true, false, Arch.avr⟩ =
      IncludeResult.included :=
  ⟨((c3_umbrella_guard ⟨false, false, false, false, false, Arch.avr⟩ (by decide)).1
      (by decide)).1,
   (c3_umbrella_guard ⟨false, false, false, true, false, Arch.avr⟩ (by decide)).2
      (by decide)⟩

/-- C4: when the GCC block is taken (the only family with real constant
detection) the constant-fold query evaluates to true on every literal; when
it is not taken the fallback definition evaluates to false on every input;
and the IAR family defines no constant-fold query in any build. -/
theorem c4_compile_const :
    (∀ e : Env, ∀ n : Int, gccBranchActive e = true →
      gccIsCompileConstSem e (CExpr.lit n) = true) ∧
    (∀ e : Env, ∀ x : CExpr, gccBranchActive e = false →
      gccIsCompileConstSem e x = false) ∧
    (∀ e : Env, iarDef e Prim.isCompileConst = none) := by
  refine ⟨?_, ?_, by decide⟩
  · intro e n h
    simp [gccIsCompileConstSem, h, __builtin_constant_p]
  · intro e x h
    simp [gccIsCompileConstSem, h]

/-- C4 (witness): the theorem applied to a literal under a GCC build and to
an arbitrary variable under a fallback build. -/
theorem c4_compile_const_witness :
    gccIsCompileConstSem ⟨true, false, false, true, false, Arch.avr⟩ (CExpr.lit 42) = true ∧
    gccIsCompileConstSem ⟨false, false, false, true, false, Arch.avr⟩ (CExpr.var "y") = false :=
  ⟨c4_compile_const.1 ⟨true, false, false, true, false, Arch.avr⟩ 42 (by decide),
   c4_compile_const.2.1 ⟨false, false, false, true, false, Arch.avr⟩ (CExpr.var "y") (by decide)⟩

/-- C5: when the IAR block is taken, IAR_ISR is a fixed three-parameter macro
(name, interrupt group, priority level), so a call supplying only the routine
name is rejected; when the GCC block is taken, GCC_ISR is variadic with one
required parameter, so a call supplying only the routine name (zero
attributes) is accepted. -/
theorem c5_isr_arity : ∀ e : Env,
    (iarBranchActive e = true →
      Option.map (fun d : MacroDef => d.arity) (iarDef e Prim.isr) =
        some (Arity.fixed 3) ∧
      Option.map (fun d : MacroDef => acceptsArgCount d.arity 1) (iarDef e Prim.isr) =
        some false) ∧
    (gccBranchActive e = true →
      Option.map (fun d : MacroDef => d.arity) (gccDef e Prim.isr) =
        some (Arity.variadic 1) ∧
      Option.map (fun d : MacroDef => acceptsArgCount d.arity 1) (gccDef e Prim.isr) =
        some true) := by
  decide

/-- C5 (witness): the theorem applied to a concrete IAR build and a concrete
GCC build, with the branch hypotheses discharged. -/
theorem c5_isr_arity_witness :
    Option.map (fun d : MacroDef => acceptsArgCount d.arity 1)
      (iarDef ⟨false, true, false, true, false, Arch.uc3⟩ Prim.isr) = some false ∧
    Option.map (fun d : MacroDef => acceptsArgCount d.arity 1)
      (gccDef ⟨true, false, false, true, false, Arch.uc3⟩ Prim.isr) = some true :=
  ⟨((c5_isr_arity ⟨false, true, false, true, false, Arch.uc3⟩).1 (by decide)).2,
   ((c5_isr_arity ⟨true, false, false, true, false, Arch.uc3⟩).2 (by decide)).2⟩

/-- C6 (counterexample): ARCH_AVR and ARCH_XMEGA are two different recognized
architectures, yet for the same part name they expand to the identical symbol
under both families, so the claim that any two different recognized
architectures yield different expanded names is false. -/
theorem c6_part_symbol_conventions_cex :
    Arch.avr ≠ Arch.xmega ∧
    gccPartSymbol Arch.avr "AT90USB1287" = gccPartSymbol Arch.xmega "AT90USB1287" ∧
    iarPartSymbol Arch.avr "90USB1287" = iarPartSymbol Arch.xmega "90USB1287" := by
  decide

/-- C6 (amended): architectures using different naming conventions never
collide — for every part name the AVR/XMEGA-convention expansion differs from
the UC3-convention expansion in both families — while ARCH_AVR and ARCH_XMEGA
share one convention and always produce the identical expanded name. -/
theorem c6_part_symbol_conventions : ∀ x : String,
    gccPartSymbol Arch.avr x ≠ gccPartSymbol Arch.uc3 x ∧
    gccPartSymbol Arch.xmega x ≠ gccPartSymbol Arch.uc3 x ∧
    iarPartSymbol Arch.avr x ≠ iarPartSymbol Arch.uc3 x ∧
    iarPartSymbol Arch.xmega x ≠ iarPartSymbol Arch.uc3 x ∧
    gccPartSymbol Arch.avr x = gccPartSymbol Arch.xmega x ∧
    iarPartSymbol Arch.avr x = iarPartSymbol Arch.xmega x := by
  intro x
  refine ⟨?_, ?_, ?_, ?_, rfl, rfl⟩ <;>
    simp only [gccPartSymbol, iarPartSymbol, ne_eq, Option.some.injEq] <;>
    exact paste_ne_of_length_ne _ _ x "__" (by decide)

/-- C6 (witness): the amended theorem applied to a concrete part name. -/
theorem c6_part_symbol_conventions_witness :
    gccPartSymbol Arch.avr "AT90USB1287" ≠ gccPartSymbol Arch.uc3 "AT90USB1287" :=
  (c6_part_symbol_conventions "AT90USB1287").1

/-- C7: whenever a family's real block is not taken, its register read and
write macros are defined with the matching arity and a completely empty
expansion — the reference builds in this layer (no diagnostic), it simply
yields no value and stores nothing. -/
theorem c7_fallback_register_access : ∀ e : Env,
    (gccBranchActive e = false →
      gccDef e Prim.readSysRegister = some ⟨Arity.fixed 1, []⟩ ∧
      gccDef e Prim.writeSysRegister = some ⟨Arity.fixed 2, []⟩) ∧
    (iarBranchActive e = false →
      iarDef e Prim.readSysRegister = some ⟨Arity.fixed 1, []⟩ ∧
      iarDef e Prim.writeSysRegister = some ⟨Arity.fixed 2, []⟩) := by
  decide

/-- C7 (witness): the theorem applied to a build with no recognized compiler,
both branch hypotheses discharged. -/
theorem c7_fallback_register_access_witness :
    gccDef ⟨false, false, false, true, false, Arch.avr⟩ Prim.readSysRegister =
      some ⟨Arity.fixed 1, []⟩ ∧
    iarDef ⟨false, false, false, true, false, Arch.avr⟩ Prim.writeSysRegister =
      some ⟨Arity.fixed 2, []⟩ :=
  ⟨((c7_fallback_register_access ⟨false, false, false, true, false, Arch.avr⟩).1
      (by decide)).1,
   ((c7_fallback_register_access ⟨false, false, false, true, false, Arch.avr⟩).2
      (by decide)).2⟩

/-- C8: under the real GCC block the clear/set flag macros expand to the
csrf/ssrf intrinsics and under the real IAR block to the IAR flag intrinsics;
each intrinsic (a single atomic instruction, modelled as one application)
clears respectively sets exactly the bits of the bitmask in the status
register and leaves every other bit unchanged. -/
theorem c8_status_flag_bits :
    (∀ e : Env, gccBranchActive e = true →
      gccDef e Prim.clearStatusFlag =
        some ⟨Arity.fixed 1, ["__builtin_csrf", "(", "Bitmask", ")"]⟩ ∧
      gccDef e Prim.setStatusFlag =
        some ⟨Arity.fixed 1, ["__builtin_ssrf", "(", "Bitmask", ")"]⟩) ∧
    (∀ e : Env, iarBranchActive e = true →
      iarDef e Prim.clearStatusFlag =
        some ⟨Arity.fixed 1, ["__clear_status_flag", "(", "Bitmask", ")"]⟩ ∧
      iarDef e Prim.setStatusFlag =
        some ⟨Arity.fixed 1, ["__set_status_flag", "(", "Bitmask", ")"]⟩) ∧
    (∀ sr mask i : Nat,
      (Nat.testBit mask i = true →
        Nat.testBit (__builtin_csrf sr mask) i = false ∧
        Nat.testBit (__builtin_ssrf sr mask) i = true ∧
        Nat.testBit (__clear_status_flag sr mask) i = false ∧
        Nat.testBit (__set_status_flag sr mask) i = true) ∧
      (Nat.testBit mask i = false →
        Nat.testBit (__builtin_csrf sr mask) i = Nat.testBit sr i ∧
        Nat.testBit (__builtin_ssrf sr mask) i = Nat.testBit sr i ∧
        Nat.testBit (__clear_status_flag sr mask) i = Nat.testBit sr i ∧
        Nat.testBit (__set_status_flag sr mask) i = Nat.testBit sr i)) := by
  refine ⟨by decide, by decide, ?_⟩
  intro sr mask i
  constructor <;> intro h <;>
    simp [__builtin_csrf, __builtin_ssrf, __clear_status_flag, __set_status_flag,
      Nat.testBit_ldiff, Nat.testBit_lor, h]

/-- C8 (witness): the bit lemma applied at a concrete register value, bitmask
and bit index, with the mask-bit hypothesis discharged. -/
theorem c8_status_flag_bits_witness :
    Nat.testBit (__builtin_csrf 5 3) 0 = false ∧
    Nat.testBit (__builtin_ssrf 5 3) 0 = true ∧
    Nat.testBit (__clear_status_flag 5 3) 0 = false ∧
    Nat.testBit (__set_status_flag 5 3) 0 = true :=
  (c8_status_flag_bits.2.2 5 3 0).1 (by decide)

/-- C9: the memory-barrier macro is nullary; when a real block is taken its
expansion is an inline-assembly statement contributing exactly one barrier to
the instruction stream, and any valid compiler reordering keeps every access
preceding the barrier before every access following it; when the GCC block is
not taken the fallback expansion is empty — a true no-op leaving the
instruction stream unchanged and unconstrained. -/
theorem c9_memory_barrier :
    (∀ e : Env,
      Option.map (fun d : MacroDef => d.arity) (gccDef e Prim.memoryBarrier) =
        some (Arity.fixed 0) ∧
      (gccBranchActive e = true →
        memoryBarrierInstrs (gccDef e Prim.memoryBarrier) = [Instr.barrier]) ∧
      (iarBranchActive e = true →
        memoryBarrierInstrs (iarDef e Prim.memoryBarrier) = [Instr.barrier]) ∧
      (gccBranchActive e = false →
        memoryBarrierInstrs (gccDef e Prim.memoryBarrier) = [] ∧
        ∀ p1 p2 : List Instr,
          p1 ++ memoryBarrierInstrs (gccDef e Prim.memoryBarrier) ++ p2 = p1 ++ p2)) ∧
    (∀ p1 p2 q : List Instr, Instr.barrier ∉ p1 → Instr.barrier ∉ p2 →
      validReorder (p1 ++ [Instr.barrier] ++ p2) q →
      ∃ q1 q2, q = q1 ++ Instr.barrier :: q2 ∧ List.Perm p1 q1 ∧ List.Perm p2 q2) := by
  constructor
  · have hall : ∀ e : Env,
        Option.map (fun d : MacroDef => d.arity) (gccDef e Prim.memoryBarrier) =
          some (Arity.fixed 0) ∧
        (gccBranchActive e = true →
          memoryBarrierInstrs (gccDef e Prim.memoryBarrier) = [Instr.barrier]) ∧
        (iarBranchActive e = true →
          memoryBarrierInstrs (iarDef e Prim.memoryBarrier) = [Instr.barrier]) ∧
        (gccBranchActive e = false →
          memoryBarrierInstrs (gccDef e Prim.memoryBarrier) = []) := by
      decide
    intro e
    obtain ⟨ha, hb, hc, hd⟩ := hall e
    refine ⟨ha, hb, hc, fun h => ⟨hd h, fun p1 p2 => ?_⟩⟩
    rw [hd h]
    simp
  · intro p1 p2 q hp1 hp2 hr
    exact barrier_separates hp1 hp2 hr

/-- C9 (witness): the theorem applied to a concrete GCC build and to the
concrete instruction stream access-barrier-access, with every hypothesis
discharged. -/
theorem c9_memory_barrier_witness :
    memoryBarrierInstrs
      (gccDef ⟨true, false, false, true, false, Arch.uc3⟩ Prim.memoryBarrier) =
      [Instr.barrier] ∧
    ∃ q1 q2, [Instr.access 0, Instr.barrier, Instr.access 1] =
        q1 ++ Instr.barrier :: q2 ∧
      List.Perm [Instr.access 0] q1 ∧ List.Perm [Instr.access 1] q2 :=
  ⟨(c9_memory_barrier.1 ⟨true, false, false, true, false, Arch.uc3⟩).2.1 (by decide),
   c9_memory_barrier.2 [Instr.access 0] [Instr.access 1]
     [Instr.access 0, Instr.barrier, Instr.access 1]
     (by decide) (by decide) (by unfold validReorder; decide)⟩

/-- C10 (counterexample): in an IAR build with an unrecognized architecture
the part query is indeed undefined, but it is not the only such primitive —
the pointer-indirection hint (and the constant-fold query) of the IAR family
are equally undefined — so the claim that every other primitive has a
definition in this situation is false. -/
theorem c10_part_query_undefined_cex :
    iarBranchActive ⟨false, true, false, true, false, Arch.other⟩ = true ∧
    iarDef ⟨false, true, false, true, false, Arch.other⟩ Prim.isPartDefined = none ∧
    iarDef ⟨false, true, false, true, false, Arch.other⟩ Prim.forcePointerAccess = none ∧
    Prim.forcePointerAccess ≠ Prim.isPartDefined := by
  decide

/-- C10 (amended): when a real block is taken with an unrecognized
architecture the part query of that family receives no definition; under the
GCC family every other primitive remains defined, while under the IAR family
the pointer-indirection hint and constant-fold query are likewise undefined
(they have no IAR implementation at all) and every remaining primitive is
defined. -/
theorem c10_part_query_undefined : ∀ e : Env,
    (gccBranchActive e = true → e.arch = Arch.other →
      gccDef e Prim.isPartDefined = none ∧
      ∀ p : Prim, p ≠ Prim.isPartDefined → (gccDef e p).isSome = true) ∧
    (iarBranchActive e = true → e.arch = Arch.other →
      iarDef e Prim.isPartDefined = none ∧
      iarDef e Prim.forcePointerAccess = none ∧
      iarDef e Prim.isCompileConst = none ∧
      ∀ p : Prim, p ≠ Prim.isPartDefined → p ≠ Prim.forcePointerAccess →
        p ≠ Prim.isCompileConst → (iarDef e p).isSome = true) := by
  intro e
  refine ⟨?_, ?_⟩ <;> revert e <;> decide

/-- C10 (witness): the amended theorem applied to a concrete GCC build with
an unrecognized architecture, both hypotheses discharged. -/
theorem c10_part_query_undefined_witness :
    gccDef ⟨true, false, false, true, false, Arch.other⟩ Prim.isPartDefined = none :=
  ((c10_part_query_undefined ⟨true, false, false, true, false, Arch.other⟩).1
    (by decide) (by decide)).1

end CompilerSpecific
